import Mathlib

/-!
Verification of the annotation encoder layer (`src/annotations.rs`).

The encoders in `annotations.rs` translate typed setter calls into key/value
writes on an underlying dictionary/array sink.  The sink itself (the `Obj`,
`Dict` and `Array` writer types, and scalar types such as `Rect`, `Date`,
`Str`, `TextStr`, `Name`) lives outside the provided source; it is modelled
here from the specification's description of the Primitive Sink: a
dictionary-shaped slot records its key/value pairs in write order, and the
last write for a given key is authoritative.

Naming: the Rust struct `Annotation` is embedded as `Annot`; all other
source names are kept.  `f32` scalars are never computed with by this layer
(only forwarded), so they are embedded as opaque bit patterns `F32`.
-/

/-- Modelled from the spec: an `f32` scalar forwarded verbatim by the encoder
layer.  The encoder performs no arithmetic on numeric components, so a float
is represented by its raw bit pattern; NaN or infinite payloads are just
particular bit patterns, passed through unchanged. -/
structure F32 where
  pattern : Nat
deriving DecidableEq

/-- Modelled from the spec: the value domain of the Primitive Sink
(integer, real, boolean, symbolic name, raw byte string, text string,
structured date, object reference, nested dict/array). -/
inductive Value where
  | int (n : Int)
  | real (x : F32)
  | bool (b : Bool)
  | name (s : String)
  | str (s : String)
  | text (s : String)
  | date (d : Nat)
  | ref (r : Nat)
  | array (xs : List Value)
  | dict (pairs : List (String × Value))

/-- Modelled from the spec: a dictionary-shaped slot records pairs in write
order, and the last write for a given key is authoritative. -/
def authoritative (pairs : List (String × Value)) (k : String) : Option Value :=
  (pairs.reverse.find? fun p => p.fst == k).map Prod.snd

/-- Modelled from the spec: `rect` writes four numeric bounds supplied by the
caller as-is, encoded as a 4-element numeric array. -/
structure Rect where
  x1 : F32
  y1 : F32
  x2 : F32
  y2 : F32

/-- Modelled from the spec: the array encoding of a rectangle. -/
def Rect.value (r : Rect) : Value :=
  Value.array [Value.real r.x1, Value.real r.y1, Value.real r.x2, Value.real r.y2]

/-- Kind of the annotation to produce (`AnnotationType` in the source). -/
inductive AnnotationType where
  | Text
  | Link
  | Line
  | Square
  | Circle
  | Highlight
  | Underline
  | Squiggly
  | StrikeOut
  | FileAttachment
deriving DecidableEq, Fintype

/-- Token table `AnnotationType::to_name`. -/
def AnnotationType.to_name : AnnotationType → String
  | .Text => "Text"
  | .Link => "Link"
  | .Line => "Line"
  | .Square => "Square"
  | .Circle => "Circle"
  | .Highlight => "Highlight"
  | .Underline => "Underline"
  | .Squiggly => "Squiggly"
  | .StrikeOut => "StrikeOut"
  | .FileAttachment => "FileAttachment"

/-- Possible icons for an annotation (`AnnotationIcon` in the source). -/
inductive AnnotationIcon where
  | Comment
  | Key
  | Note
  | Help
  | NewParagraph
  | Paragraph
  | Insert
  | Graph
  | PushPin
  | Paperclip
  | Tag
deriving DecidableEq, Fintype

/-- Token table `AnnotationIcon::to_name`. -/
def AnnotationIcon.to_name : AnnotationIcon → String
  | .Comment => "Comment"
  | .Key => "Key"
  | .Note => "Note"
  | .Help => "Help"
  | .NewParagraph => "NewParagraph"
  | .Paragraph => "Paragraph"
  | .Insert => "Insert"
  | .Graph => "Graph"
  | .PushPin => "PushPin"
  | .Paperclip => "Paperclip"
  | .Tag => "Tag"

/-- What kind of action to perform when clicking a link annotation
(`ActionType` in the source). -/
inductive ActionType where
  | GoTo
  | RemoteGoTo
  | Launch
  | Uri
deriving DecidableEq, Fintype

/-- Token table `ActionType::to_name`. -/
def ActionType.to_name : ActionType → String
  | .GoTo => "GoTo"
  | .RemoteGoTo => "GoToR"
  | .Launch => "Launch"
  | .Uri => "URI"

/-- Highlighting effect (`HighlightEffect` in the source). -/
inductive HighlightEffect where
  | None
  | Invert
  | Outline
  | Push
deriving DecidableEq, Fintype

/-- Token table `HighlightEffect::to_name`. -/
def HighlightEffect.to_name : HighlightEffect → String
  | .None => "N"
  | .Invert => "I"
  | .Outline => "O"
  | .Push => "P"

/-- The kind of line to draw on the border (`BorderType` in the source). -/
inductive BorderType where
  | Solid
  | Dashed
  | Beveled
  | Inset
  | Underline
deriving DecidableEq, Fintype

/-- Token table `BorderType::to_name`. -/
def BorderType.to_name : BorderType → String
  | .Solid => "S"
  | .Dashed => "D"
  | .Beveled => "B"
  | .Inset => "I"
  | .Underline => "U"

/-- Bitflags describing various characteristics of annotations
(`AnnotationFlags` in the source, a `bitflags` set over `u32`). -/
structure AnnotationFlags where
  bits : Nat
deriving DecidableEq

def AnnotationFlags.INVISIBLE : AnnotationFlags := ⟨1 <<< 0⟩

def AnnotationFlags.HIDDEN : AnnotationFlags := ⟨1 <<< 1⟩

def AnnotationFlags.PRINT : AnnotationFlags := ⟨1 <<< 2⟩

def AnnotationFlags.NO_ZOOM : AnnotationFlags := ⟨1 <<< 3⟩

def AnnotationFlags.NO_ROTATE : AnnotationFlags := ⟨1 <<< 4⟩

def AnnotationFlags.NO_VIEW : AnnotationFlags := ⟨1 <<< 5⟩

def AnnotationFlags.READ_ONLY : AnnotationFlags := ⟨1 <<< 6⟩

def AnnotationFlags.LOCKED : AnnotationFlags := ⟨1 <<< 7⟩

def AnnotationFlags.TOGGLE_NO_VIEW : AnnotationFlags := ⟨1 <<< 8⟩

def AnnotationFlags.LOCKED_CONTENTS : AnnotationFlags := ⟨1 <<< 9⟩

/-- Modelled from the spec: combination of flag sets is a bitwise union
(the `|` operator generated by the `bitflags` macro). -/
def AnnotationFlags.union (a b : AnnotationFlags) : AnnotationFlags :=
  ⟨a.bits ||| b.bits⟩

/-- Modelled from the spec: the empty flag set (`AnnotationFlags::empty`). -/
def AnnotationFlags.empty : AnnotationFlags := ⟨0⟩

/-- The ten declared flags, in declaration order. -/
def AnnotationFlags.declared : List AnnotationFlags :=
  [AnnotationFlags.INVISIBLE, AnnotationFlags.HIDDEN, AnnotationFlags.PRINT,
   AnnotationFlags.NO_ZOOM, AnnotationFlags.NO_ROTATE, AnnotationFlags.NO_VIEW,
   AnnotationFlags.READ_ONLY, AnnotationFlags.LOCKED,
   AnnotationFlags.TOGGLE_NO_VIEW, AnnotationFlags.LOCKED_CONTENTS]

/-- A flag set composed from a list of flags by bitwise union. -/
def AnnotationFlags.ofList (l : List AnnotationFlags) : AnnotationFlags :=
  l.foldl AnnotationFlags.union AnnotationFlags.empty

/-- The `as i32` cast applied by `Annotation::flags` to the `u32` bit pattern:
two's-complement reinterpretation of the low 32 bits. -/
def u32ToI32 (n : Nat) : Int :=
  if n % 2 ^ 32 < 2 ^ 31 then ((n % 2 ^ 32 : Nat) : Int) else ((n % 2 ^ 32 : Nat) : Int) - 2 ^ 32

/-- Writer for a _file specification dictionary_ (`FileSpec` in the source).
Its state is the list of key/value pairs written so far, in write order. -/
structure FileSpec where
  pairs : List (String × Value)

/-- `FileSpec::new`: writes `Type = Filespec` on construction. -/
def FileSpec.new : FileSpec := ⟨[("Type", Value.name "Filespec")]⟩

/-- `Dict::pair` on the wrapped handle: appends one key/value pair. -/
def FileSpec.pair (a : FileSpec) (k : String) (v : Value) : FileSpec :=
  ⟨a.pairs ++ [(k, v)]⟩

/-- `FileSpec::file_system`: writes the `FS` attribute. -/
def FileSpec.file_system (a : FileSpec) (system : String) : FileSpec :=
  a.pair "FS" (Value.name system)

/-- `FileSpec::file`: writes the `F` attribute (raw byte string path). -/
def FileSpec.file (a : FileSpec) (path : String) : FileSpec :=
  a.pair "F" (Value.str path)

/-- `FileSpec::unic_file`: writes the `UF` attribute (text-typed path). -/
def FileSpec.unic_file (a : FileSpec) (path : String) : FileSpec :=
  a.pair "UF" (Value.text path)

/-- `FileSpec::volatile`: writes the `V` attribute. -/
def FileSpec.volatile (a : FileSpec) (no_cache : Bool) : FileSpec :=
  a.pair "V" (Value.bool no_cache)

/-- `FileSpec::description`: writes the `Desc` attribute. -/
def FileSpec.description (a : FileSpec) (desc : String) : FileSpec :=
  a.pair "Desc" (Value.text desc)

/-- Writer for a _border style dictionary_ (`BorderStyle` in the source). -/
structure BorderStyle where
  pairs : List (String × Value)

/-- `BorderStyle::new`: writes `Type = Border` on construction. -/
def BorderStyle.new : BorderStyle := ⟨[("Type", Value.name "Border")]⟩

/-- `Dict::pair` on the wrapped handle: appends one key/value pair. -/
def BorderStyle.pair (a : BorderStyle) (k : String) (v : Value) : BorderStyle :=
  ⟨a.pairs ++ [(k, v)]⟩

/-- `BorderStyle::width`: writes the `W` attribute. -/
def BorderStyle.width (a : BorderStyle) (points : F32) : BorderStyle :=
  a.pair "W" (Value.real points)

/-- `BorderStyle::style`: writes the `S` attribute. -/
def BorderStyle.style (a : BorderStyle) (s : BorderType) : BorderStyle :=
  a.pair "S" (Value.name s.to_name)

/-- `BorderStyle::dashes`: writes the `D` attribute as a numeric array. -/
def BorderStyle.dashes (a : BorderStyle) (dash_pattern : List F32) : BorderStyle :=
  a.pair "D" (Value.array (dash_pattern.map Value.real))

/-- Writer for an _action dictionary_ (`Action` in the source). -/
structure Pdf.Action where
  pairs : List (String × Value)

/-- `Action::new`: writes `Type = Action` on construction. -/
def Pdf.Action.new : Pdf.Action := ⟨[("Type", Value.name "Action")]⟩

/-- `Dict::pair` on the wrapped handle: appends one key/value pair. -/
def Pdf.Action.pair (a : Pdf.Action) (k : String) (v : Value) : Pdf.Action :=
  ⟨a.pairs ++ [(k, v)]⟩

/-- `Action::action_type`: writes the `S` attribute. -/
def Pdf.Action.action_type (a : Pdf.Action) (kind : ActionType) : Pdf.Action :=
  a.pair "S" (Value.name kind.to_name)

/-- `Action::dest_direct`. Modelled from the spec: the nested Destination
encoder is an external collaborator out of core scope, so the destination
committed under `D` is an opaque value. -/
def Pdf.Action.dest_direct (a : Pdf.Action) (dest : Value) : Pdf.Action :=
  a.pair "D" dest

/-- `Action::dest_named`: writes the `D` attribute as a name. -/
def Pdf.Action.dest_named (a : Pdf.Action) (n : String) : Pdf.Action :=
  a.pair "D" (Value.name n)

/-- `Action::file`: commits a nested file specification under `F`. -/
def Pdf.Action.file (a : Pdf.Action) (fs : FileSpec) : Pdf.Action :=
  a.pair "F" (Value.dict fs.pairs)

/-- `Action::new_window`: writes the `NewWindow` attribute. -/
def Pdf.Action.new_window (a : Pdf.Action) (n : Bool) : Pdf.Action :=
  a.pair "NewWindow" (Value.bool n)

/-- `Action::uri`: writes the `URI` attribute (raw byte string). -/
def Pdf.Action.uri (a : Pdf.Action) (u : String) : Pdf.Action :=
  a.pair "URI" (Value.str u)

/-- `Action::is_map`: writes the `IsMap` attribute. -/
def Pdf.Action.is_map (a : Pdf.Action) (m : Bool) : Pdf.Action :=
  a.pair "IsMap" (Value.bool m)

/-- Writer for an _annotation dictionary_ (`Annotation` in the source,
renamed `Annot` here). -/
structure Annot where
  pairs : List (String × Value)

/-- `Annotation::new`: writes `Type = Annot` on construction. -/
def Annot.new : Annot := ⟨[("Type", Value.name "Annot")]⟩

/-- `Dict::pair` on the wrapped handle: appends one key/value pair. -/
def Annot.pair (a : Annot) (k : String) (v : Value) : Annot :=
  ⟨a.pairs ++ [(k, v)]⟩

/-- `Annotation::subtype`: writes the `Subtype` attribute. -/
def Annot.subtype (a : Annot) (kind : AnnotationType) : Annot :=
  a.pair "Subtype" (Value.name kind.to_name)

/-- `Annotation::rect`: writes the `Rect` attribute. -/
def Annot.rect (a : Annot) (r : Rect) : Annot :=
  a.pair "Rect" r.value

/-- `Annotation::contents`: writes the `Contents` attribute. -/
def Annot.contents (a : Annot) (text : String) : Annot :=
  a.pair "Contents" (Value.text text)

/-- `Annotation::name`: writes the `NM` attribute. -/
def Annot.name (a : Annot) (text : String) : Annot :=
  a.pair "NM" (Value.text text)

/-- `Annotation::modified`: writes the `M` attribute (opaque date payload,
formatting delegated to the Primitive Sink). -/
def Annot.modified (a : Annot) (date : Nat) : Annot :=
  a.pair "M" (Value.date date)

/-- `Annotation::flags`: writes the `F` attribute as `flags.bits() as i32`. -/
def Annot.flags (a : Annot) (flags : AnnotationFlags) : Annot :=
  a.pair "F" (Value.int (u32ToI32 flags.bits))

/-- `Annotation::border`: writes the `Border` attribute, a 3-element numeric
array, followed by a nested dash-pattern array exactly when `dash_pattern`
is supplied. -/
def Annot.border (a : Annot) (h_radius v_radius width : F32)
    (dash_pattern : Option (List F32)) : Annot :=
  a.pair "Border" (Value.array
    ([Value.real h_radius, Value.real v_radius, Value.real width] ++
      match dash_pattern with
      | none => []
      | some pattern => [Value.array (pattern.map Value.real)]))

/-- `Annotation::border_style`: commits a nested border style dictionary
under `BS`. -/
def Annot.border_style (a : Annot) (bs : BorderStyle) : Annot :=
  a.pair "BS" (Value.dict bs.pairs)

/-- `Annotation::color_transparent`: writes the `C` attribute as an empty
numeric array. -/
def Annot.color_transparent (a : Annot) : Annot :=
  a.pair "C" (Value.array [])

/-- `Annotation::color_gray`: writes the `C` attribute as a 1-element array. -/
def Annot.color_gray (a : Annot) (gray : F32) : Annot :=
  a.pair "C" (Value.array [Value.real gray])

/-- `Annotation::color_rgb`: writes the `C` attribute as a 3-element array. -/
def Annot.color_rgb (a : Annot) (r g b : F32) : Annot :=
  a.pair "C" (Value.array [Value.real r, Value.real g, Value.real b])

/-- `Annotation::color_cmyk`: writes the `C` attribute as a 4-element array. -/
def Annot.color_cmyk (a : Annot) (c m y k : F32) : Annot :=
  a.pair "C" (Value.array [Value.real c, Value.real m, Value.real y, Value.real k])

/-- `Annotation::action`: commits a nested action dictionary under `A`. -/
def Annot.action (a : Annot) (act : Pdf.Action) : Annot :=
  a.pair "A" (Value.dict act.pairs)

/-- `Annotation::highlight`: writes the `H` attribute. -/
def Annot.highlight (a : Annot) (effect : HighlightEffect) : Annot :=
  a.pair "H" (Value.name effect.to_name)

/-- `Annotation::author`: writes the `T` attribute. -/
def Annot.author (a : Annot) (text : String) : Annot :=
  a.pair "T" (Value.text text)

/-- `Annotation::subject`: writes the `Subj` attribute. -/
def Annot.subject (a : Annot) (text : String) : Annot :=
  a.pair "Subj" (Value.text text)

/-- `Annotation::quad_points`: writes the `QuadPoints` attribute as a flat
numeric array. -/
def Annot.quad_points (a : Annot) (coordinates : List F32) : Annot :=
  a.pair "QuadPoints" (Value.array (coordinates.map Value.real))

/-- `Annotation::line_to`: writes the `LL` attribute as a 4-element array. -/
def Annot.line_to (a : Annot) (x1 y1 x2 y2 : F32) : Annot :=
  a.pair "LL" (Value.array [Value.real x1, Value.real y1, Value.real x2, Value.real y2])

/-- `Annotation::file`: commits a nested file specification under `FS`. -/
def Annot.file (a : Annot) (fs : FileSpec) : Annot :=
  a.pair "FS" (Value.dict fs.pairs)

/-- `Annotation::icon_predefined`: writes the `Name` attribute with a
predefined icon token. -/
def Annot.icon_predefined (a : Annot) (icon : AnnotationIcon) : Annot :=
  a.pair "Name" (Value.name icon.to_name)

/-- `Annotation::icon_custom`: writes the `Name` attribute with a custom
symbolic name. -/
def Annot.icon_custom (a : Annot) (n : String) : Annot :=
  a.pair "Name" (Value.name n)

/-- One public setter call on an `Annotation` encoder, with its arguments. -/
inductive AnnotOp where
  | subtype (kind : AnnotationType)
  | rect (r : Rect)
  | contents (text : String)
  | name (text : String)
  | modified (date : Nat)
  | flags (f : AnnotationFlags)
  | border (h_radius v_radius width : F32) (dash_pattern : Option (List F32))
  | border_style (bs : BorderStyle)
  | color_transparent
  | color_gray (gray : F32)
  | color_rgb (r g b : F32)
  | color_cmyk (c m y k : F32)
  | action (act : Pdf.Action)
  | highlight (effect : HighlightEffect)
  | author (text : String)
  | subject (text : String)
  | quad_points (coordinates : List F32)
  | line_to (x1 y1 x2 y2 : F32)
  | file (fs : FileSpec)
  | icon_predefined (icon : AnnotationIcon)
  | icon_custom (n : String)

/-- Dispatch of one setter call to the corresponding `Annotation` method. -/
def Annot.applyOp (a : Annot) : AnnotOp → Annot
  | .subtype kind => a.subtype kind
  | .rect r => a.rect r
  | .contents text => a.contents text
  | .name text => a.name text
  | .modified date => a.modified date
  | .flags f => a.flags f
  | .border h v w dash => a.border h v w dash
  | .border_style bs => a.border_style bs
  | .color_transparent => a.color_transparent
  | .color_gray gray => a.color_gray gray
  | .color_rgb r g b => a.color_rgb r g b
  | .color_cmyk c m y k => a.color_cmyk c m y k
  | .action act => a.action act
  | .highlight effect => a.highlight effect
  | .author text => a.author text
  | .subject text => a.subject text
  | .quad_points coordinates => a.quad_points coordinates
  | .line_to x1 y1 x2 y2 => a.line_to x1 y1 x2 y2
  | .file fs => a.file fs
  | .icon_predefined icon => a.icon_predefined icon
  | .icon_custom n => a.icon_custom n

/-- The key/value pairs a single `Annotation` setter call appends. -/
def AnnotOp.written : AnnotOp → List (String × Value)
  | .subtype kind => [("Subtype", Value.name kind.to_name)]
  | .rect r => [("Rect", r.value)]
  | .contents text => [("Contents", Value.text text)]
  | .name text => [("NM", Value.text text)]
  | .modified date => [("M", Value.date date)]
  | .flags f => [("F", Value.int (u32ToI32 f.bits))]
  | .border h v w dash => [("Border", Value.array
      ([Value.real h, Value.real v, Value.real w] ++
        match dash with
        | none => []
        | some pattern => [Value.array (pattern.map Value.real)]))]
  | .border_style bs => [("BS", Value.dict bs.pairs)]
  | .color_transparent => [("C", Value.array [])]
  | .color_gray gray => [("C", Value.array [Value.real gray])]
  | .color_rgb r g b => [("C", Value.array [Value.real r, Value.real g, Value.real b])]
  | .color_cmyk c m y k =>
      [("C", Value.array [Value.real c, Value.real m, Value.real y, Value.real k])]
  | .action act => [("A", Value.dict act.pairs)]
  | .highlight effect => [("H", Value.name effect.to_name)]
  | .author text => [("T", Value.text text)]
  | .subject text => [("Subj", Value.text text)]
  | .quad_points coordinates => [("QuadPoints", Value.array (coordinates.map Value.real))]
  | .line_to x1 y1 x2 y2 => [("LL", Value.array
      [Value.real x1, Value.real y1, Value.real x2, Value.real y2])]
  | .file fs => [("FS", Value.dict fs.pairs)]
  | .icon_predefined icon => [("Name", Value.name icon.to_name)]
  | .icon_custom n => [("Name", Value.name n)]

/-- One public setter call on an `Action` encoder, with its arguments. -/
inductive ActionOp where
  | action_type (kind : ActionType)
  | dest_direct (dest : Value)
  | dest_named (n : String)
  | file (fs : FileSpec)
  | new_window (n : Bool)
  | uri (u : String)
  | is_map (m : Bool)

/-- Dispatch of one setter call to the corresponding `Action` method. -/
def Pdf.Action.applyOp (a : Pdf.Action) : ActionOp → Pdf.Action
  | .action_type kind => a.action_type kind
  | .dest_direct dest => a.dest_direct dest
  | .dest_named n => a.dest_named n
  | .file fs => a.file fs
  | .new_window n => a.new_window n
  | .uri u => a.uri u
  | .is_map m => a.is_map m

/-- The key/value pairs a single `Action` setter call appends. -/
def ActionOp.written : ActionOp → List (String × Value)
  | .action_type kind => [("S", Value.name kind.to_name)]
  | .dest_direct dest => [("D", dest)]
  | .dest_named n => [("D", Value.name n)]
  | .file fs => [("F", Value.dict fs.pairs)]
  | .new_window n => [("NewWindow", Value.bool n)]
  | .uri u => [("URI", Value.str u)]
  | .is_map m => [("IsMap", Value.bool m)]

/-- One public setter call on a `FileSpec` encoder, with its arguments. -/
inductive FileSpecOp where
  | file_system (system : String)
  | file (path : String)
  | unic_file (path : String)
  | volatile (no_cache : Bool)
  | description (desc : String)

/-- Dispatch of one setter call to the corresponding `FileSpec` method. -/
def FileSpec.applyOp (a : FileSpec) : FileSpecOp → FileSpec
  | .file_system system => a.file_system system
  | .file path => a.file path
  | .unic_file path => a.unic_file path
  | .volatile no_cache => a.volatile no_cache
  | .description desc => a.description desc

/-- The key/value pairs a single `FileSpec` setter call appends. -/
def FileSpecOp.written : FileSpecOp → List (String × Value)
  | .file_system system => [("FS", Value.name system)]
  | .file path => [("F", Value.str path)]
  | .unic_file path => [("UF", Value.text path)]
  | .volatile no_cache => [("V", Value.bool no_cache)]
  | .description desc => [("Desc", Value.text desc)]

/-- One public setter call on a `BorderStyle` encoder, with its arguments. -/
inductive BorderStyleOp where
  | width (points : F32)
  | style (s : BorderType)
  | dashes (dash_pattern : List F32)

/-- Dispatch of one setter call to the corresponding `BorderStyle` method. -/
def BorderStyle.applyOp (a : BorderStyle) : BorderStyleOp → BorderStyle
  | .width points => a.width points
  | .style s => a.style s
  | .dashes dash_pattern => a.dashes dash_pattern

/-- The key/value pairs a single `BorderStyle` setter call appends. -/
def BorderStyleOp.written : BorderStyleOp → List (String × Value)
  | .width points => [("W", Value.real points)]
  | .style s => [("S", Value.name s.to_name)]
  | .dashes dash_pattern => [("D", Value.array (dash_pattern.map Value.real))]

theorem authoritative_append (l : List (String × Value)) (k : String) (v : Value) :
    authoritative (l ++ [(k, v)]) k = some v := by
  simp [authoritative, List.reverse_append]

theorem head?_append_left {α : Type} {l l' : List α} {x : α} (h : l.head? = some x) :
    (l ++ l').head? = some x := by
  cases l with
  | nil => simp at h
  | cons a t => simpa using h

theorem annot_applyOp_append (a : Annot) (op : AnnotOp) :
    (a.applyOp op).pairs = a.pairs ++ op.written := by
  cases op <;> rfl

theorem action_applyOp_append (a : Pdf.Action) (op : ActionOp) :
    (a.applyOp op).pairs = a.pairs ++ op.written := by
  cases op <;> rfl

theorem fileSpec_applyOp_append (a : FileSpec) (op : FileSpecOp) :
    (a.applyOp op).pairs = a.pairs ++ op.written := by
  cases op <;> rfl

theorem borderStyle_applyOp_append (a : BorderStyle) (op : BorderStyleOp) :
    (a.applyOp op).pairs = a.pairs ++ op.written := by
  cases op <;> rfl

theorem annot_foldl_head (ops : List AnnotOp) (a : Annot) (x : String × Value)
    (h : a.pairs.head? = some x) :
    (ops.foldl Annot.applyOp a).pairs.head? = some x := by
  induction ops generalizing a with
  | nil => exact h
  | cons op rest ih =>
      simp only [List.foldl_cons]
      exact ih _ (by rw [annot_applyOp_append]; exact head?_append_left h)

theorem action_foldl_head (ops : List ActionOp) (a : Pdf.Action) (x : String × Value)
    (h : a.pairs.head? = some x) :
    (ops.foldl Pdf.Action.applyOp a).pairs.head? = some x := by
  induction ops generalizing a with
  | nil => exact h
  | cons op rest ih =>
      simp only [List.foldl_cons]
      exact ih _ (by rw [action_applyOp_append]; exact head?_append_left h)

theorem fileSpec_foldl_head (ops : List FileSpecOp) (a : FileSpec) (x : String × Value)
    (h : a.pairs.head? = some x) :
    (ops.foldl FileSpec.applyOp a).pairs.head? = some x := by
  induction ops generalizing a with
  | nil => exact h
  | cons op rest ih =>
      simp only [List.foldl_cons]
      exact ih _ (by rw [fileSpec_applyOp_append]; exact head?_append_left h)

theorem borderStyle_foldl_head (ops : List BorderStyleOp) (a : BorderStyle) (x : String × Value)
    (h : a.pairs.head? = some x) :
    (ops.foldl BorderStyle.applyOp a).pairs.head? = some x := by
  induction ops generalizing a with
  | nil => exact h
  | cons op rest ih =>
      simp only [List.foldl_cons]
      exact ih _ (by rw [borderStyle_applyOp_append]; exact head?_append_left h)

theorem u32ToI32_of_lt (n : Nat) (h : n < 2 ^ 31) : u32ToI32 n = (n : Int) := by
  unfold u32ToI32
  rw [Nat.mod_eq_of_lt (lt_trans h (by norm_num))]
  rw [if_pos h]

theorem bits_lt_of_mem_declared (f : AnnotationFlags) (h : f ∈ AnnotationFlags.declared) :
    f.bits < 2 ^ 10 := by
  fin_cases h <;> decide

theorem foldl_union_bits_lt (l : List AnnotationFlags) (acc : AnnotationFlags)
    (hacc : acc.bits < 2 ^ 10) (h : ∀ f ∈ l, f ∈ AnnotationFlags.declared) :
    (l.foldl AnnotationFlags.union acc).bits < 2 ^ 10 := by
  induction l generalizing acc with
  | nil => exact hacc
  | cons f rest ih =>
      simp only [List.foldl_cons]
      exact ih _
        (Nat.or_lt_two_pow hacc (bits_lt_of_mem_declared f (h f (by simp))))
        (fun g hg => h g (by simp [hg]))

/-- The action of the C1 scenario: `action_type(Uri)` then
`uri("https://example.com")` on a fresh `Action` encoder. -/
def c1_action : Pdf.Action :=
  (Pdf.Action.new.action_type ActionType.Uri).uri "https://example.com"

/-- The annotation of the C1 scenario: `subtype(Link)`, `rect((0,0,100,50))`,
then the nested action. -/
def c1_annot : Annot :=
  (((Annot.new.subtype AnnotationType.Link).rect
      ⟨⟨0⟩, ⟨0⟩, ⟨100⟩, ⟨50⟩⟩).action c1_action)

/-- C1: the Link/URI scenario produces a dictionary with Type=Annot,
Subtype=Link, Rect=[0,0,100,50], and under key A a nested dictionary with
Type=Action, S=URI and URI equal to the given string. -/
theorem c1_link_uri_scenario :
    authoritative c1_annot.pairs "Type" = some (Value.name "Annot") ∧
    authoritative c1_annot.pairs "Subtype" = some (Value.name "Link") ∧
    authoritative c1_annot.pairs "Rect" = some (Value.array
      [Value.real ⟨0⟩, Value.real ⟨0⟩, Value.real ⟨100⟩, Value.real ⟨50⟩]) ∧
    authoritative c1_annot.pairs "A" = some (Value.dict c1_action.pairs) ∧
    authoritative c1_action.pairs "Type" = some (Value.name "Action") ∧
    authoritative c1_action.pairs "S" = some (Value.name "URI") ∧
    authoritative c1_action.pairs "URI" = some (Value.str "https://example.com") :=
  ⟨rfl, rfl, rfl, rfl, rfl, rfl, rfl⟩

/-- C2: `border(h, v, w, none)` writes exactly the 3-element array [h, v, w]
under `Border` (the 4th element is omitted entirely), and
`border(h, v, w, some [d1, d2])` writes exactly 4 elements, the 4th being
the nested numeric array [d1, d2]. -/
theorem c2_border_arity (a : Annot) (h v w d1 d2 : F32) :
    authoritative (a.border h v w none).pairs "Border" =
      some (Value.array [Value.real h, Value.real v, Value.real w]) ∧
    authoritative (a.border h v w (some [d1, d2])).pairs "Border" =
      some (Value.array [Value.real h, Value.real v, Value.real w,
        Value.array [Value.real d1, Value.real d2]]) :=
  ⟨authoritative_append a.pairs "Border" _, authoritative_append a.pairs "Border" _⟩

/-- C3: within each of the five closed enumerations, the token mapping
`to_name` is injective (and, being a Lean function, total on every variant). -/
theorem c3_to_name_injective :
    Function.Injective AnnotationType.to_name ∧
    Function.Injective AnnotationIcon.to_name ∧
    Function.Injective ActionType.to_name ∧
    Function.Injective HighlightEffect.to_name ∧
    Function.Injective BorderType.to_name := by
  refine ⟨?_, ?_, ?_, ?_, ?_⟩ <;> decide

/-- C4: flag-set union commutes with `bits` as bitwise or, the empty flag set
has bit pattern 0, and each of the ten declared flags is the power of two of
its declared bit position. -/
theorem c4_flag_set_bits :
    (∀ a b : AnnotationFlags, (a.union b).bits = a.bits ||| b.bits) ∧
    AnnotationFlags.empty.bits = 0 ∧
    AnnotationFlags.INVISIBLE.bits = 2 ^ 0 ∧
    AnnotationFlags.HIDDEN.bits = 2 ^ 1 ∧
    AnnotationFlags.PRINT.bits = 2 ^ 2 ∧
    AnnotationFlags.NO_ZOOM.bits = 2 ^ 3 ∧
    AnnotationFlags.NO_ROTATE.bits = 2 ^ 4 ∧
    AnnotationFlags.NO_VIEW.bits = 2 ^ 5 ∧
    AnnotationFlags.READ_ONLY.bits = 2 ^ 6 ∧
    AnnotationFlags.LOCKED.bits = 2 ^ 7 ∧
    AnnotationFlags.TOGGLE_NO_VIEW.bits = 2 ^ 8 ∧
    AnnotationFlags.LOCKED_CONTENTS.bits = 2 ^ 9 :=
  ⟨fun _ _ => rfl, by decide⟩

/-- C5: the color setters write under `C` a numeric array whose length alone
encodes the color space — 0, 1, 3 or 4 components — with the component
values passed through unchanged. -/
theorem c5_color_arrays (a : Annot) (g r gr bl c m y k : F32) :
    authoritative a.color_transparent.pairs "C" = some (Value.array []) ∧
    authoritative (a.color_gray g).pairs "C" = some (Value.array [Value.real g]) ∧
    authoritative (a.color_rgb r gr bl).pairs "C" =
      some (Value.array [Value.real r, Value.real gr, Value.real bl]) ∧
    authoritative (a.color_cmyk c m y k).pairs "C" =
      some (Value.array [Value.real c, Value.real m, Value.real y, Value.real k]) :=
  ⟨authoritative_append a.pairs "C" _, authoritative_append a.pairs "C" _,
   authoritative_append a.pairs "C" _, authoritative_append a.pairs "C" _⟩

/-- C6: each compound encoder writes its fixed type discriminator pair on
construction, and it remains the first pair of the dictionary after every
sequence of subsequent setter calls. -/
theorem c6_type_discriminator_first (opsAnnot : List AnnotOp)
    (opsAction : List ActionOp) (opsFile : List FileSpecOp)
    (opsBorder : List BorderStyleOp) :
    (opsAnnot.foldl Annot.applyOp Annot.new).pairs.head? =
      some ("Type", Value.name "Annot") ∧
    (opsAction.foldl Pdf.Action.applyOp Pdf.Action.new).pairs.head? =
      some ("Type", Value.name "Action") ∧
    (opsFile.foldl FileSpec.applyOp FileSpec.new).pairs.head? =
      some ("Type", Value.name "Filespec") ∧
    (opsBorder.foldl BorderStyle.applyOp BorderStyle.new).pairs.head? =
      some ("Type", Value.name "Border") :=
  ⟨annot_foldl_head _ _ _ rfl, action_foldl_head _ _ _ rfl,
   fileSpec_foldl_head _ _ _ rfl, borderStyle_foldl_head _ _ _ rfl⟩

/-- C7: `icon_predefined(Comment)` and `icon_custom("Foo")` both target the
`Name` key; after the first call its authoritative value is `Comment`, and
after the second call the last write wins: the authoritative value is `Foo`. -/
theorem c7_icon_last_write_wins (a : Annot) :
    authoritative (a.icon_predefined AnnotationIcon.Comment).pairs "Name" =
      some (Value.name "Comment") ∧
    authoritative ((a.icon_predefined AnnotationIcon.Comment).icon_custom "Foo").pairs
      "Name" = some (Value.name "Foo") :=
  ⟨authoritative_append a.pairs "Name" _,
   authoritative_append (a.icon_predefined AnnotationIcon.Comment).pairs "Name" _⟩

/-- C8: every public setter of the four encoders is a total function whose
entire effect is to append exactly its written key/value pairs — no error,
panic or I/O branch exists, and all scalar arguments (including arbitrary
`f32` bit patterns such as NaN or infinities) are passed through unchanged
into the written pairs. -/
theorem c8_setters_total :
    (∀ (a : Annot) (op : AnnotOp), (a.applyOp op).pairs = a.pairs ++ op.written) ∧
    (∀ (a : Pdf.Action) (op : ActionOp), (a.applyOp op).pairs = a.pairs ++ op.written) ∧
    (∀ (a : FileSpec) (op : FileSpecOp), (a.applyOp op).pairs = a.pairs ++ op.written) ∧
    (∀ (a : BorderStyle) (op : BorderStyleOp), (a.applyOp op).pairs = a.pairs ++ op.written) :=
  ⟨annot_applyOp_append, action_applyOp_append,
   fileSpec_applyOp_append, borderStyle_applyOp_append⟩

/-- C9: a flag set composed of the declared flags has a bit pattern of at
most 0x3FF, so the `as i32` cast in `Annotation::flags` is lossless: the
integer written under `F` equals the unsigned bit pattern (in particular it
is non-negative, being a `Nat` cast). -/
theorem c9_flags_cast_lossless (a : Annot) (l : List AnnotationFlags)
    (h : ∀ f ∈ l, f ∈ AnnotationFlags.declared) :
    (AnnotationFlags.ofList l).bits ≤ 0x3FF ∧
    authoritative (a.flags (AnnotationFlags.ofList l)).pairs "F" =
      some (Value.int ((AnnotationFlags.ofList l).bits : Int)) := by
  have hlt : (AnnotationFlags.ofList l).bits < 2 ^ 10 :=
    foldl_union_bits_lt l AnnotationFlags.empty (by decide) h
  refine ⟨by omega, ?_⟩
  have hcast : u32ToI32 (AnnotationFlags.ofList l).bits =
      ((AnnotationFlags.ofList l).bits : Int) :=
    u32ToI32_of_lt _ (by omega)
  calc authoritative (a.flags (AnnotationFlags.ofList l)).pairs "F"
      = some (Value.int (u32ToI32 (AnnotationFlags.ofList l).bits)) :=
        authoritative_append a.pairs "F" _
    _ = some (Value.int ((AnnotationFlags.ofList l).bits : Int)) := by rw [hcast]

/-- Witness for C9 at the concrete flag list [INVISIBLE, LOCKED_CONTENTS]
and a fresh annotation encoder. -/
theorem c9_flags_cast_lossless_witness :
    (∀ f ∈ [AnnotationFlags.INVISIBLE, AnnotationFlags.LOCKED_CONTENTS],
      f ∈ AnnotationFlags.declared) ∧
    ((AnnotationFlags.ofList
        [AnnotationFlags.INVISIBLE, AnnotationFlags.LOCKED_CONTENTS]).bits ≤ 0x3FF ∧
      authoritative (Annot.new.flags (AnnotationFlags.ofList
        [AnnotationFlags.INVISIBLE, AnnotationFlags.LOCKED_CONTENTS])).pairs "F" =
        some (Value.int ((AnnotationFlags.ofList
          [AnnotationFlags.INVISIBLE, AnnotationFlags.LOCKED_CONTENTS]).bits : Int))) :=
  ⟨by decide, c9_flags_cast_lossless Annot.new
    [AnnotationFlags.INVISIBLE, AnnotationFlags.LOCKED_CONTENTS] (by decide)⟩

/-- C10: `border(h, v, w, some [])` writes a 4-element `Border` array whose
4th element is an empty nested array, and that value differs from the
3-element array written when the option is `none`: the 4th element's
presence is decided solely by the option being `some`. -/
theorem c10_border_empty_dash (a : Annot) (h v w : F32) :
    authoritative (a.border h v w (some [])).pairs "Border" =
      some (Value.array [Value.real h, Value.real v, Value.real w, Value.array []]) ∧
    Value.array [Value.real h, Value.real v, Value.real w, Value.array []] ≠
      Value.array [Value.real h, Value.real v, Value.real w] :=
  ⟨authoritative_append a.pairs "Border" _, by simp⟩
